import Mathlib

/-!
# Verification of the WeChat–Shopify bridge server

A shallow embedding of the two source variants of the bridge
(`src/server.js` and `src/unnamed/part_000`), which expose two HTTP
endpoints (`GET /api/stock` and `POST /api/create-order`) and proxy each
to a GraphQL call against the Shopify Admin API via the helper
`shopifyAdminGraphQL`.

Modelling choices:
* JSON values are the inductive `Json`; JavaScript truthiness is the
  Boolean `Json.truthy` (`0`, `""`, `null`, `false` are falsy; objects
  and arrays, even empty ones, are truthy).
* The upstream (network + Shopify) is an oracle: for each outbound
  `fetch` the environment supplies a `FetchBehavior` — a non-2xx HTTP
  status, a truthy top-level `errors` field, or a decoded `data` payload
  typed to the shape of the GraphQL query that was sent.
* Each handler is a pure function from the configuration, the inbound
  request, and the oracle to the pair of the HTTP response it sends and
  the list of upstream calls it actually issued (a call is recorded
  exactly when a `fetch` is performed; the missing-token throw happens
  before `fetch`, so no call is recorded then).
* `try/catch`: `shopifyAdminGraphQL` returns `Except String`; the `catch`
  of each handler maps any error to the 500 `{error: "Internal error"}`
  response, exactly as the source does.
* The two source files differ only inside the create-order handler
  (`SrcVariant` selects the mutation text and the variables key `order`
  vs `input`); the stock handler is textually identical in both, so one
  definition embeds both copies.
-/

/-- A JSON value, as handled by the JavaScript source. -/
inductive Json where
  | null : Json
  | bool : Bool → Json
  | num : Int → Json
  | str : String → Json
  | arr : List Json → Json
  | obj : List (String × Json) → Json

/-- JavaScript truthiness of a JSON value: `null`, `false`, `0` and `""`
are falsy; any array or object (even empty) is truthy. -/
def Json.truthy : Json → Bool
  | .null => false
  | .bool b => b
  | .num n => n != 0
  | .str s => s != ""
  | .arr _ => true
  | .obj _ => true

/-- Truthiness of a possibly-absent value (`undefined` is falsy):
this is the `!x` test the handlers apply to destructured body fields. -/
def falsyOpt : Option Json → Bool
  | none => true
  | some j => !j.truthy

/-- `x || d` on a possibly-absent JSON value: the given value when truthy,
otherwise the default. Used for the `email`/`note` defaulting. -/
def jsOr (x : Option Json) (d : Json) : Json :=
  match x with
  | some j => if j.truthy then j else d
  | none => d

/-- Field access on a JSON object (used only in theorem statements). -/
def Json.getField : Json → String → Option Json
  | .obj fs, k => fs.lookup k
  | _, _ => none

/-- Server configuration. `adminToken` models `process.env.SHOPIFY_ADMIN_TOKEN`:
`none` is an unset variable (`undefined` in `server.js`; `part_000` defaults
it to `""`, which is equally falsy). -/
structure Config where
  adminToken : Option String

/-- The `if (!ADMIN_TOKEN)` guard: the token is usable iff it is a set,
non-empty string. -/
def tokenTruthy : Option String → Bool
  | none => false
  | some s => s != ""

/-- The GraphQL operation texts sent by the source, abstracted to tags.
`createOrderV1` is the `server.js` mutation (`$order: OrderCreateOrderInput!`,
`orderCreate(order: $order)`); `createOrderV2` is the `part_000` mutation
(`$input: OrderInput!`, `orderCreate(input: $input)`). -/
inductive GqlQuery where
  | getStock : GqlQuery
  | getVariant : GqlQuery
  | createOrderV1 : GqlQuery
  | createOrderV2 : GqlQuery

/-- One outbound upstream call: the operation sent and its `variables`. -/
abbrev Call := GqlQuery × Json

/-- The environment's behavior for one `fetch` to the upstream, decoded
to the payload type `α` of the query that was sent:
`httpError` is a non-2xx response (`!res.ok`); `gqlErrors` is a 2xx
response whose body has a truthy top-level `errors` field, carrying the
`message` of each error (`some ""` models an error object whose `message`
is falsy or absent); `success` is a 2xx response with `data` decoded. -/
inductive FetchBehavior (α : Type) where
  | httpError : Nat → FetchBehavior α
  | gqlErrors : List (Option String) → FetchBehavior α
  | success : α → FetchBehavior α

/-- `shopifyAdminGraphQL`: throws when the token is falsy (before any
`fetch`); otherwise throws `Shopify HTTP <status>` on a non-2xx response,
throws `json.errors[0]?.message || "Shopify GraphQL error"` when the body
carries a truthy `errors` field, and returns `json.data` otherwise. -/
def shopifyAdminGraphQL {α : Type} (cfg : Config) (beh : FetchBehavior α) :
    Except String α :=
  if !tokenTruthy cfg.adminToken then
    .error "Missing SHOPIFY_ADMIN_TOKEN (Admin API token)"
  else
    match beh with
    | .httpError status => .error ("Shopify HTTP " ++ toString status)
    | .gqlErrors errs =>
      .error (match errs.head? with
        | some (some m) => if m != "" then m else "Shopify GraphQL error"
        | some none => "Shopify GraphQL error"
        | none => "Shopify GraphQL error")
    | .success d => .ok d

/-- Issue one upstream interaction: run `shopifyAdminGraphQL` and record
the call in the trace exactly when the `fetch` was actually performed
(the missing-token throw precedes the `fetch`, so nothing is recorded). -/
def callShopify {α : Type} (cfg : Config) (q : GqlQuery) (vars : Json)
    (beh : FetchBehavior α) : Except String α × List Call :=
  (shopifyAdminGraphQL cfg beh,
   if tokenTruthy cfg.adminToken then [(q, vars)] else [])

/-- An HTTP response sent to the caller: status code and JSON body. -/
structure HttpResponse where
  status : Nat
  body : Json

/-- The 500 `{error: "Internal error"}` response produced by each
handler's `catch` block. -/
def internalErrorResponse : HttpResponse :=
  ⟨500, Json.obj [("error", Json.str "Internal error")]⟩

/-- The decoded `data` of the stock query: `product` with its
`totalInventory` field, which may be `null`. -/
structure StockProduct where
  id : String
  totalInventory : Option Int

/-- `data` for the stock query; `product` is `null` for an unknown id. -/
structure StockData where
  product : Option StockProduct

/-- The `GET /api/stock` handler (textually identical in both source
files). Input `productId` is `req.query.productId` (absent or a string);
the result pairs the response with the upstream calls issued. -/
def getStockHandler (cfg : Config) (productId : Option String)
    (beh : FetchBehavior StockData) : HttpResponse × List Call :=
  match productId with
  | none => (⟨400, Json.obj [("error", Json.str "Missing productId")]⟩, [])
  | some pid =>
    if pid == "" then
      (⟨400, Json.obj [("error", Json.str "Missing productId")]⟩, [])
    else
      match callShopify cfg .getStock (Json.obj [("id", Json.str pid)]) beh with
      | (.error _, calls) => (internalErrorResponse, calls)
      | (.ok d, calls) =>
        match d.product with
        | none => (⟨404, Json.obj [("error", Json.str "Product not found")]⟩, calls)
        | some p =>
          let qty : Int := p.totalInventory.getD 0
          (⟨200, Json.obj [("productId", Json.str pid),
                           ("quantity", Json.num qty),
                           ("available", Json.bool (decide (qty > 0)))]⟩, calls)

/-- A node of the variant connection: only `id` is selected. -/
structure VariantNode where
  id : String

/-- An edge of the `variants(first: 1)` connection. -/
structure VariantEdge where
  node : VariantNode

/-- The product returned by the variant-lookup query. -/
structure VariantProduct where
  id : String
  title : String
  variants : List VariantEdge

/-- `data` for the variant-lookup query. -/
structure VariantData where
  product : Option VariantProduct

/-- `data.orderCreate` of the order mutation: `order` is passed through
verbatim to the caller, so it stays an opaque JSON value; `userErrors`
is a possibly-`null` list whose elements are passed through verbatim. -/
structure OrderCreatePayload where
  order : Json
  userErrors : Option (List Json)

/-- `data` for the order mutation; `orderCreate` may be `null`, in which
case the handler's field accesses throw and the `catch` yields 500. -/
structure OrderData where
  orderCreate : Option OrderCreatePayload

/-- Which source file's create-order handler is running: they differ
only in the mutation text and the variables key (`order` vs `input`). -/
inductive SrcVariant where
  | serverJs : SrcVariant
  | part000 : SrcVariant

/-- The JSON body of a `POST /api/create-order` request, after the
destructuring `const {productId, quantity, email, note} = req.body || {}`
(a missing body gives four absent fields). -/
structure OrderReqBody where
  productId : Option Json
  quantity : Option Json
  email : Option Json
  note : Option Json

/-- The `userErrors && userErrors.length` guard: truthy iff the field is
present, non-`null`, and the list is non-empty (an empty array is truthy
but has length 0). -/
def userErrorsNonEmpty : Option (List Json) → Bool
  | none => false
  | some l => l.length != 0

/-- The `POST /api/create-order` handler. `beh1` is the environment's
behavior for the variant-lookup fetch, `beh2` for the order-mutation
fetch (consulted only if that second fetch happens). -/
def createOrderHandler (v : SrcVariant) (cfg : Config) (body : OrderReqBody)
    (beh1 : FetchBehavior VariantData) (beh2 : FetchBehavior OrderData) :
    HttpResponse × List Call :=
  if falsyOpt body.productId || falsyOpt body.quantity then
    (⟨400, Json.obj [("error", Json.str "Missing productId or quantity")]⟩, [])
  else
    match callShopify cfg .getVariant
        (Json.obj [("id", body.productId.getD Json.null)]) beh1 with
    | (.error _, c1) => (internalErrorResponse, c1)
    | (.ok d, c1) =>
      match d.product with
      | none => (⟨404, Json.obj [("error", Json.str "Product or variant not found")]⟩, c1)
      | some p =>
        match p.variants with
        | [] => (⟨404, Json.obj [("error", Json.str "Product or variant not found")]⟩, c1)
        | edge :: _ =>
          let variantId := edge.node.id
          let orderInput := Json.obj
            [("email", jsOr body.email (Json.str "no-email@example.com")),
             ("lineItems", Json.arr [Json.obj
               [("quantity", body.quantity.getD Json.null),
                ("variantId", Json.str variantId)]]),
             ("tags", Json.arr [Json.str "WeChat Mini Program"]),
             ("note", jsOr body.note (Json.str "Order from WeChat Mini Program")),
             ("financialStatus", Json.str "PAID")]
          let mutCall : Call :=
            match v with
            | .serverJs => (.createOrderV1, Json.obj [("order", orderInput)])
            | .part000 => (.createOrderV2, Json.obj [("input", orderInput)])
          match callShopify cfg mutCall.1 mutCall.2 beh2 with
          | (.error _, c2) => (internalErrorResponse, c1 ++ c2)
          | (.ok od, c2) =>
            match od.orderCreate with
            | none => (internalErrorResponse, c1 ++ c2)
            | some result =>
              if userErrorsNonEmpty result.userErrors then
                (⟨400, Json.obj [("error", Json.str "Shopify order error"),
                                 ("details", Json.arr (result.userErrors.getD []))]⟩,
                 c1 ++ c2)
              else
                (⟨200, Json.obj [("success", Json.bool true),
                                 ("order", result.order)]⟩, c1 ++ c2)

/-- Renaming that turns a `server.js` order-mutation call into the
`part_000` form: the mutation tag changes and the single variables key
`order` becomes `input`; every other call is untouched. -/
def renameOrderCall : Call → Call
  | (GqlQuery.createOrderV1, Json.obj [("order", oi)]) =>
    (GqlQuery.createOrderV2, Json.obj [("input", oi)])
  | c => c

/-! ## Helper lemmas -/

/-- `shopifyAdminGraphQL` returns data only when the environment supplied
a decoded `data` payload (and the token was truthy). -/
theorem shopifyAdminGraphQL_ok_inv {α : Type} {cfg : Config}
    {beh : FetchBehavior α} {d : α}
    (h : shopifyAdminGraphQL cfg beh = .ok d) : beh = .success d := by
  unfold shopifyAdminGraphQL at h
  split at h
  · exact absurd h (by simp)
  · cases beh <;> simp_all

/-! ## Claims -/

/-- C1: for every `GET /api/stock` request with a (non-empty) `productId`
where the upstream returns a product object, the handler responds 200 with
`quantity` equal to the upstream `totalInventory` (a missing/null field
treated as 0) and `available = (quantity > 0)`; in particular `available`
is `true` iff `quantity > 0` in the success response. -/
theorem getStock_success_shape (cfg : Config) (pid : String) (prod : StockProduct)
    (htok : tokenTruthy cfg.adminToken = true) (hpid : pid ≠ "") :
    getStockHandler cfg (some pid) (FetchBehavior.success ⟨some prod⟩) =
      (⟨200, Json.obj [("productId", Json.str pid),
                       ("quantity", Json.num (prod.totalInventory.getD 0)),
                       ("available", Json.bool (decide (prod.totalInventory.getD 0 > 0)))]⟩,
       [(GqlQuery.getStock, Json.obj [("id", Json.str pid)])]) ∧
    ((getStockHandler cfg (some pid) (FetchBehavior.success ⟨some prod⟩)).fst.body.getField
        "available" = some (Json.bool true) ↔ 0 < prod.totalInventory.getD 0) := by
  have hmain : getStockHandler cfg (some pid) (FetchBehavior.success ⟨some prod⟩) =
      (⟨200, Json.obj [("productId", Json.str pid),
                       ("quantity", Json.num (prod.totalInventory.getD 0)),
                       ("available", Json.bool (decide (prod.totalInventory.getD 0 > 0)))]⟩,
       [(GqlQuery.getStock, Json.obj [("id", Json.str pid)])]) := by
    simp [getStockHandler, callShopify, shopifyAdminGraphQL, htok, hpid]
  refine ⟨hmain, ?_⟩
  rw [hmain]
  simp [Json.getField, List.lookup]

/-- C1 witness: a concrete product with inventory 3. -/
theorem getStock_success_shape_witness :
    ("p1" : String) ≠ "" ∧
    (getStockHandler ⟨some "tok"⟩ (some "p1")
        (FetchBehavior.success ⟨some ⟨"p1", some 3⟩⟩)).fst.status = 200 :=
  ⟨by decide,
   by rw [(getStock_success_shape ⟨some "tok"⟩ "p1" ⟨"p1", some 3⟩ (by decide) (by decide)).1]⟩

/-- C4: a `POST /api/create-order` request whose body lacks `productId`
or lacks `quantity` gets a 400 with a short error message and no upstream
call at all. -/
theorem createOrder_missingField_400 (v : SrcVariant) (cfg : Config)
    (body : OrderReqBody) (beh1 : FetchBehavior VariantData)
    (beh2 : FetchBehavior OrderData)
    (h : body.productId = none ∨ body.quantity = none) :
    createOrderHandler v cfg body beh1 beh2 =
      (⟨400, Json.obj [("error", Json.str "Missing productId or quantity")]⟩, []) := by
  rcases h with h | h <;> simp [createOrderHandler, falsyOpt, h]

/-- C4 witness: a body with `productId` but no `quantity`. -/
theorem createOrder_missingField_400_witness :
    ((⟨some (Json.str "g1"), none, none, none⟩ : OrderReqBody).quantity = none) ∧
    createOrderHandler SrcVariant.serverJs ⟨some "tok"⟩
        ⟨some (Json.str "g1"), none, none, none⟩
        (FetchBehavior.success ⟨none⟩) (FetchBehavior.success ⟨none⟩) =
      (⟨400, Json.obj [("error", Json.str "Missing productId or quantity")]⟩, []) :=
  ⟨rfl,
   createOrder_missingField_400 SrcVariant.serverJs ⟨some "tok"⟩
     ⟨some (Json.str "g1"), none, none, none⟩
     (FetchBehavior.success ⟨none⟩) (FetchBehavior.success ⟨none⟩) (Or.inr rfl)⟩

/-- C10: with `productId` present and `quantity` present but falsy
(`0`, `null`, `false`, or `""`), the handler returns the 400
"Missing productId or quantity" error and makes no upstream call. -/
theorem createOrder_falsyQuantity_400 (v : SrcVariant) (cfg : Config)
    (pj qj : Json) (e n : Option Json) (beh1 : FetchBehavior VariantData)
    (beh2 : FetchBehavior OrderData) (hq : qj.truthy = false) :
    createOrderHandler v cfg ⟨some pj, some qj, e, n⟩ beh1 beh2 =
      (⟨400, Json.obj [("error", Json.str "Missing productId or quantity")]⟩, []) := by
  simp [createOrderHandler, falsyOpt, hq]

/-- C10 witness: `quantity = 0` with a present `productId`. -/
theorem createOrder_falsyQuantity_400_witness :
    (Json.num 0).truthy = false ∧
    createOrderHandler SrcVariant.serverJs ⟨some "tok"⟩
        ⟨some (Json.str "g1"), some (Json.num 0), none, none⟩
        (FetchBehavior.success ⟨none⟩) (FetchBehavior.success ⟨none⟩) =
      (⟨400, Json.obj [("error", Json.str "Missing productId or quantity")]⟩, []) :=
  ⟨by decide,
   createOrder_falsyQuantity_400 SrcVariant.serverJs ⟨some "tok"⟩
     (Json.str "g1") (Json.num 0) none none
     (FetchBehavior.success ⟨none⟩) (FetchBehavior.success ⟨none⟩) (by decide)⟩

/-- C2: when the variant lookup succeeds but reports no product, or a
product with an empty variants edge list, the handler responds 404 with
the not-found body and the trace is exactly the one variant query — the
order mutation is never issued, whatever the environment would have
answered to it. -/
theorem createOrder_notFound_noMutation (v : SrcVariant) (cfg : Config)
    (body : OrderReqBody) (d : VariantData) (beh2 : FetchBehavior OrderData)
    (hp : falsyOpt body.productId = false) (hq : falsyOpt body.quantity = false)
    (htok : tokenTruthy cfg.adminToken = true)
    (hnf : d.product = none ∨ ∃ p, d.product = some p ∧ p.variants = []) :
    createOrderHandler v cfg body (FetchBehavior.success d) beh2 =
      (⟨404, Json.obj [("error", Json.str "Product or variant not found")]⟩,
       [(GqlQuery.getVariant, Json.obj [("id", body.productId.getD Json.null)])]) := by
  rcases hnf with h | ⟨p, h, hv⟩
  · simp [createOrderHandler, callShopify, shopifyAdminGraphQL, hp, hq, htok, h]
  · simp [createOrderHandler, callShopify, shopifyAdminGraphQL, hp, hq, htok, h, hv]

/-- C2 witness: a product with zero variant edges. -/
theorem createOrder_notFound_noMutation_witness :
    (falsyOpt (some (Json.str "g1")) = false ∧ falsyOpt (some (Json.num 2)) = false) ∧
    createOrderHandler SrcVariant.serverJs ⟨some "tok"⟩
        ⟨some (Json.str "g1"), some (Json.num 2), none, none⟩
        (FetchBehavior.success ⟨some ⟨"g1", "Shirt", []⟩⟩)
        (FetchBehavior.success ⟨none⟩) =
      (⟨404, Json.obj [("error", Json.str "Product or variant not found")]⟩,
       [(GqlQuery.getVariant, Json.obj [("id", Json.str "g1")])]) :=
  ⟨⟨by decide, by decide⟩,
   createOrder_notFound_noMutation SrcVariant.serverJs ⟨some "tok"⟩
     ⟨some (Json.str "g1"), some (Json.num 2), none, none⟩
     ⟨some ⟨"g1", "Shirt", []⟩⟩ (FetchBehavior.success ⟨none⟩)
     (by decide) (by decide) (by decide)
     (Or.inr ⟨⟨"g1", "Shirt", []⟩, rfl, rfl⟩)⟩

/-- C8: with no usable access token configured, any request that reaches
the upstream-call path — a stock lookup with a non-empty `productId`, or
an order creation with truthy `productId` and `quantity` — yields the
generic 500 internal error and an empty call trace: the failure happens
at call time, before any network request is made. (Startup itself never
consults the token in the source: `app.listen` is unconditional.) -/
theorem missingToken_call_time_500 (cfg : Config)
    (htok : tokenTruthy cfg.adminToken = false)
    (pid : String) (hpid : pid ≠ "") (behS : FetchBehavior StockData)
    (v : SrcVariant) (body : OrderReqBody)
    (beh1 : FetchBehavior VariantData) (beh2 : FetchBehavior OrderData)
    (hp : falsyOpt body.productId = false) (hq : falsyOpt body.quantity = false) :
    getStockHandler cfg (some pid) behS = (internalErrorResponse, []) ∧
    createOrderHandler v cfg body beh1 beh2 = (internalErrorResponse, []) := by
  constructor
  · simp [getStockHandler, callShopify, shopifyAdminGraphQL, htok, hpid]
  · simp [createOrderHandler, callShopify, shopifyAdminGraphQL, htok, hp, hq]

/-- C8 witness: an unset token (`server.js`) with both kinds of request. -/
theorem missingToken_call_time_500_witness :
    (tokenTruthy (none : Option String) = false ∧ ("p1" : String) ≠ "" ∧
       falsyOpt (some (Json.str "g1")) = false ∧ falsyOpt (some (Json.num 1)) = false) ∧
    (getStockHandler ⟨none⟩ (some "p1")
        (FetchBehavior.success ⟨some ⟨"p1", some 3⟩⟩) = (internalErrorResponse, []) ∧
     createOrderHandler SrcVariant.part000 ⟨none⟩
        ⟨some (Json.str "g1"), some (Json.num 1), none, none⟩
        (FetchBehavior.success ⟨none⟩) (FetchBehavior.success ⟨none⟩) =
      (internalErrorResponse, [])) :=
  ⟨⟨rfl, by decide, by decide, by decide⟩,
   missingToken_call_time_500 ⟨none⟩ rfl "p1" (by decide)
     (FetchBehavior.success ⟨some ⟨"p1", some 3⟩⟩) SrcVariant.part000
     ⟨some (Json.str "g1"), some (Json.num 1), none, none⟩
     (FetchBehavior.success ⟨none⟩) (FetchBehavior.success ⟨none⟩)
     (by decide) (by decide)⟩

/-- C6 counterexample: the claim says every successful stock response has
`quantity ≥ 0` whatever inventory the upstream reports, but an upstream
`totalInventory` of `-1` is passed through unclamped: the handler answers
200 with `quantity = -1`, which is negative. -/
theorem getStock_negative_quantity_counterexample :
    (getStockHandler ⟨some "tok"⟩ (some "p1")
        (FetchBehavior.success ⟨some ⟨"p1", some (-1)⟩⟩)).fst =
      ⟨200, Json.obj [("productId", Json.str "p1"),
                      ("quantity", Json.num (-1)),
                      ("available", Json.bool false)]⟩ ∧
    (-1 : Int) < 0 := by
  constructor
  · rfl
  · decide

/-- C6 amended: every successful (status 200) stock response has the
shape `{productId, quantity, available}` where `quantity` equals the
upstream `totalInventory` (0 when missing/null) — possibly negative,
since the value is passed through unclamped — and `available` is true
iff `quantity > 0`. -/
theorem getStock_success_shape_general (cfg : Config) (pidOpt : Option String)
    (beh : FetchBehavior StockData)
    (h : (getStockHandler cfg pidOpt beh).fst.status = 200) :
    ∃ pid prod, pidOpt = some pid ∧ beh = FetchBehavior.success ⟨some prod⟩ ∧
      (getStockHandler cfg pidOpt beh).fst.body =
        Json.obj [("productId", Json.str pid),
          ("quantity", Json.num (prod.totalInventory.getD 0)),
          ("available", Json.bool (decide (prod.totalInventory.getD 0 > 0)))] := by
  cases pidOpt with
  | none => simp [getStockHandler] at h
  | some pid =>
    by_cases hpid : pid == ""
    · simp [getStockHandler, hpid] at h
    · cases hres : shopifyAdminGraphQL cfg beh with
      | error e =>
        simp [getStockHandler, hpid, callShopify, hres, internalErrorResponse] at h
      | ok d =>
        obtain ⟨dp⟩ := d
        cases hprod : dp with
        | none =>
          rw [hprod] at hres
          simp [getStockHandler, hpid, callShopify, hres] at h
        | some p =>
          rw [hprod] at hres
          refine ⟨pid, p, rfl, shopifyAdminGraphQL_ok_inv hres, ?_⟩
          simp [getStockHandler, hpid, callShopify, hres]

/-- C6 amended witness: a concrete negative inventory flows through. -/
theorem getStock_success_shape_general_witness :
    (getStockHandler ⟨some "tok"⟩ (some "p2")
        (FetchBehavior.success ⟨some ⟨"p2", some (-7)⟩⟩)).fst.status = 200 ∧
    ∃ pid prod, (some "p2") = some pid ∧
      (FetchBehavior.success ⟨some ⟨"p2", some (-7)⟩⟩ : FetchBehavior StockData) =
        FetchBehavior.success ⟨some prod⟩ ∧
      (getStockHandler ⟨some "tok"⟩ (some "p2")
          (FetchBehavior.success ⟨some ⟨"p2", some (-7)⟩⟩)).fst.body =
        Json.obj [("productId", Json.str pid),
          ("quantity", Json.num (prod.totalInventory.getD 0)),
          ("available", Json.bool (decide (prod.totalInventory.getD 0 > 0)))] :=
  ⟨rfl,
   getStock_success_shape_general ⟨some "tok"⟩ (some "p2")
     (FetchBehavior.success ⟨some ⟨"p2", some (-7)⟩⟩) rfl⟩

/-- C3: when the order mutation comes back with a non-empty `userErrors`
list, the handler responds 400 with `details` equal to that list
verbatim — the success body is never sent. -/
theorem createOrder_userErrors_400 (v : SrcVariant) (cfg : Config)
    (body : OrderReqBody) (p : VariantProduct) (result : OrderCreatePayload)
    (l : List Json)
    (hp : falsyOpt body.productId = false) (hq : falsyOpt body.quantity = false)
    (htok : tokenTruthy cfg.adminToken = true)
    (hv : p.variants ≠ []) (hue : result.userErrors = some l) (hl : l ≠ []) :
    (createOrderHandler v cfg body (FetchBehavior.success ⟨some p⟩)
        (FetchBehavior.success ⟨some result⟩)).fst =
      ⟨400, Json.obj [("error", Json.str "Shopify order error"),
                      ("details", Json.arr l)]⟩ := by
  cases hvv : p.variants with
  | nil => exact absurd hvv hv
  | cons e es =>
    have hlen : l.length ≠ 0 := fun hh => hl (List.length_eq_zero.mp hh)
    simp [createOrderHandler, callShopify, shopifyAdminGraphQL, hp, hq, htok,
      hvv, hue, userErrorsNonEmpty, hlen]

/-- C3 witness: one concrete user error is passed through as `details`. -/
theorem createOrder_userErrors_400_witness :
    ([Json.obj [("field", Json.arr [Json.str "lineItems"]),
                ("message", Json.str "Invalid line item")]] ≠ ([] : List Json)) ∧
    (createOrderHandler SrcVariant.serverJs ⟨some "tok"⟩
        ⟨some (Json.str "g1"), some (Json.num 2), none, none⟩
        (FetchBehavior.success ⟨some ⟨"g1", "Shirt", [⟨⟨"v1"⟩⟩]⟩⟩)
        (FetchBehavior.success ⟨some ⟨Json.null,
          some [Json.obj [("field", Json.arr [Json.str "lineItems"]),
                          ("message", Json.str "Invalid line item")]]⟩⟩)).fst =
      ⟨400, Json.obj [("error", Json.str "Shopify order error"),
                      ("details", Json.arr
                        [Json.obj [("field", Json.arr [Json.str "lineItems"]),
                                   ("message", Json.str "Invalid line item")]])]⟩ :=
  ⟨by simp,
   createOrder_userErrors_400 SrcVariant.serverJs ⟨some "tok"⟩
     ⟨some (Json.str "g1"), some (Json.num 2), none, none⟩
     ⟨"g1", "Shirt", [⟨⟨"v1"⟩⟩]⟩
     ⟨Json.null, some [Json.obj [("field", Json.arr [Json.str "lineItems"]),
                                 ("message", Json.str "Invalid line item")]]⟩
     [Json.obj [("field", Json.arr [Json.str "lineItems"]),
                ("message", Json.str "Invalid line item")]]
     (by decide) (by decide) (by decide) (by simp) rfl (by simp)⟩

/-- C5 counterexample: the claim says a present but non-positive quantity
is rejected with 400 and upstream is never contacted, but `quantity = -5`
is truthy, so it passes the only validation performed: the handler
contacts upstream twice and even answers 200 when the mutation succeeds. -/
theorem createOrder_negQuantity_counterexample :
    (createOrderHandler SrcVariant.serverJs ⟨some "tok"⟩
        ⟨some (Json.str "g1"), some (Json.num (-5)), none, none⟩
        (FetchBehavior.success ⟨some ⟨"g1", "Shirt", [⟨⟨"v1"⟩⟩]⟩⟩)
        (FetchBehavior.success ⟨some ⟨Json.null, some []⟩⟩)).fst.status = 200 ∧
    (createOrderHandler SrcVariant.serverJs ⟨some "tok"⟩
        ⟨some (Json.str "g1"), some (Json.num (-5)), none, none⟩
        (FetchBehavior.success ⟨some ⟨"g1", "Shirt", [⟨⟨"v1"⟩⟩]⟩⟩)
        (FetchBehavior.success ⟨some ⟨Json.null, some []⟩⟩)).snd.length = 2 :=
  ⟨rfl, rfl⟩

/-- C5 amended: `quantity` is checked only for JavaScript falsiness.
A falsy `quantity` (absent, `0`, `null`, `false`, `""`) gives 400 with no
upstream call; any truthy `quantity` — including negative numbers and
non-numeric strings — passes validation, and (with a usable token) the
variant query is issued as the first upstream call. -/
theorem createOrder_quantity_falsyCheckOnly (v : SrcVariant) (cfg : Config)
    (body : OrderReqBody) (beh1 : FetchBehavior VariantData)
    (beh2 : FetchBehavior OrderData)
    (hp : falsyOpt body.productId = false) :
    (falsyOpt body.quantity = true →
       createOrderHandler v cfg body beh1 beh2 =
         (⟨400, Json.obj [("error", Json.str "Missing productId or quantity")]⟩, [])) ∧
    (falsyOpt body.quantity = false → tokenTruthy cfg.adminToken = true →
       (createOrderHandler v cfg body beh1 beh2).snd.head? =
         some (GqlQuery.getVariant, Json.obj [("id", body.productId.getD Json.null)])) := by
  constructor
  · intro hq
    simp [createOrderHandler, hq]
  · intro hq htok
    cases beh1 with
    | httpError s =>
      simp [createOrderHandler, callShopify, shopifyAdminGraphQL, hp, hq, htok]
    | gqlErrors es =>
      simp [createOrderHandler, callShopify, shopifyAdminGraphQL, hp, hq, htok]
    | success d =>
      obtain ⟨dp⟩ := d
      cases dp with
      | none =>
        simp [createOrderHandler, callShopify, shopifyAdminGraphQL, hp, hq, htok]
      | some p =>
        cases hvv : p.variants with
        | nil =>
          simp [createOrderHandler, callShopify, shopifyAdminGraphQL, hp, hq, htok, hvv]
        | cons e es =>
          cases beh2 with
          | httpError s2 =>
            simp [createOrderHandler, callShopify, shopifyAdminGraphQL, hp, hq, htok, hvv]
          | gqlErrors es2 =>
            simp [createOrderHandler, callShopify, shopifyAdminGraphQL, hp, hq, htok, hvv]
          | success od =>
            obtain ⟨oc⟩ := od
            cases oc with
            | none =>
              simp [createOrderHandler, callShopify, shopifyAdminGraphQL, hp, hq, htok, hvv]
            | some result =>
              by_cases hue : userErrorsNonEmpty result.userErrors = true <;>
                simp [createOrderHandler, callShopify, shopifyAdminGraphQL, hp, hq,
                  htok, hvv, hue]

/-- C5 amended witness: `quantity = -5` (truthy) reaches the variant
query; the falsy branch is exercised by the C10 theorem's witness. -/
theorem createOrder_quantity_falsyCheckOnly_witness :
    falsyOpt (some (Json.str "g1")) = false ∧
    (falsyOpt (some (Json.num (-5))) = false → tokenTruthy (some "tok") = true →
       (createOrderHandler SrcVariant.part000 ⟨some "tok"⟩
           ⟨some (Json.str "g1"), some (Json.num (-5)), none, none⟩
           (FetchBehavior.success ⟨some ⟨"g1", "Shirt", [⟨⟨"v1"⟩⟩]⟩⟩)
           (FetchBehavior.success ⟨some ⟨Json.null, some []⟩⟩)).snd.head? =
         some (GqlQuery.getVariant, Json.obj [("id", Json.str "g1")])) :=
  ⟨by decide,
   (createOrder_quantity_falsyCheckOnly SrcVariant.part000 ⟨some "tok"⟩
     ⟨some (Json.str "g1"), some (Json.num (-5)), none, none⟩
     (FetchBehavior.success ⟨some ⟨"g1", "Shirt", [⟨⟨"v1"⟩⟩]⟩⟩)
     (FetchBehavior.success ⟨some ⟨Json.null, some []⟩⟩) (by decide)).2⟩

/-- C7 counterexample: the claim says the outbound payload's email equals
the request's email whenever one is present, but a present-and-empty
email (`""`) is falsy, so the `||` defaulting replaces it: the mutation
payload carries `"no-email@example.com"`, not the request's `""`. -/
theorem createOrder_payload_counterexample :
    (createOrderHandler SrcVariant.serverJs ⟨some "tok"⟩
        ⟨some (Json.str "g1"), some (Json.num 1), some (Json.str ""), none⟩
        (FetchBehavior.success ⟨some ⟨"g1", "Shirt", [⟨⟨"v1"⟩⟩]⟩⟩)
        (FetchBehavior.success ⟨some ⟨Json.null, none⟩⟩)).snd =
      [(GqlQuery.getVariant, Json.obj [("id", Json.str "g1")]),
       (GqlQuery.createOrderV1, Json.obj [("order", Json.obj
         [("email", Json.str "no-email@example.com"),
          ("lineItems", Json.arr [Json.obj [("quantity", Json.num 1),
                                            ("variantId", Json.str "v1")]]),
          ("tags", Json.arr [Json.str "WeChat Mini Program"]),
          ("note", Json.str "Order from WeChat Mini Program"),
          ("financialStatus", Json.str "PAID")])])] ∧
    ("no-email@example.com" : String) ≠ "" :=
  ⟨rfl, by decide⟩

/-- C7 amended: for every request that passes validation and variant
resolution, the order-mutation payload carries `email` equal to the
request's email when truthy and `"no-email@example.com"` when absent or
falsy, `note` equal to the request's note when truthy and
`"Order from WeChat Mini Program"` when absent or falsy, and
`financialStatus` fixed to `"PAID"` regardless of the request. -/
theorem createOrder_payload_defaults (v : SrcVariant) (cfg : Config)
    (body : OrderReqBody) (p : VariantProduct) (e : VariantEdge)
    (es : List VariantEdge) (beh2 : FetchBehavior OrderData)
    (hp : falsyOpt body.productId = false) (hq : falsyOpt body.quantity = false)
    (htok : tokenTruthy cfg.adminToken = true) (hvv : p.variants = e :: es) :
    ∃ vars : Json,
      (createOrderHandler v cfg body (FetchBehavior.success ⟨some p⟩) beh2).snd =
        [(GqlQuery.getVariant, Json.obj [("id", body.productId.getD Json.null)]),
         (match v with
          | SrcVariant.serverJs => GqlQuery.createOrderV1
          | SrcVariant.part000 => GqlQuery.createOrderV2,
          Json.obj [(match v with
                     | SrcVariant.serverJs => "order"
                     | SrcVariant.part000 => "input", vars)])] ∧
      vars.getField "email" = some (jsOr body.email (Json.str "no-email@example.com")) ∧
      vars.getField "note" = some (jsOr body.note (Json.str "Order from WeChat Mini Program")) ∧
      vars.getField "financialStatus" = some (Json.str "PAID") := by
  refine ⟨Json.obj
      [("email", jsOr body.email (Json.str "no-email@example.com")),
       ("lineItems", Json.arr [Json.obj
         [("quantity", body.quantity.getD Json.null),
          ("variantId", Json.str e.node.id)]]),
       ("tags", Json.arr [Json.str "WeChat Mini Program"]),
       ("note", jsOr body.note (Json.str "Order from WeChat Mini Program")),
       ("financialStatus", Json.str "PAID")], ?_, rfl, rfl, rfl⟩
  cases v <;>
  · cases beh2 with
    | httpError s2 =>
      simp [createOrderHandler, callShopify, shopifyAdminGraphQL, hp, hq, htok, hvv]
    | gqlErrors es2 =>
      simp [createOrderHandler, callShopify, shopifyAdminGraphQL, hp, hq, htok, hvv]
    | success od =>
      obtain ⟨oc⟩ := od
      cases oc with
      | none =>
        simp [createOrderHandler, callShopify, shopifyAdminGraphQL, hp, hq, htok, hvv]
      | some result =>
        by_cases hue : userErrorsNonEmpty result.userErrors = true <;>
          simp [createOrderHandler, callShopify, shopifyAdminGraphQL, hp, hq, htok, hvv, hue]

/-- C7 amended witness: a request with a provided note and no email sends
the default email and the provided note, with `financialStatus = "PAID"`. -/
theorem createOrder_payload_defaults_witness :
    ∃ vars : Json,
      (createOrderHandler SrcVariant.part000 ⟨some "tok"⟩
          ⟨some (Json.str "g2"), some (Json.num 3), none, some (Json.str "gift wrap")⟩
          (FetchBehavior.success ⟨some ⟨"g2", "Mug", [⟨⟨"v9"⟩⟩]⟩⟩)
          (FetchBehavior.success ⟨some ⟨Json.null, some []⟩⟩)).snd =
        [(GqlQuery.getVariant, Json.obj [("id", Json.str "g2")]),
         (GqlQuery.createOrderV2, Json.obj [("input", vars)])] ∧
      vars.getField "email" = some (Json.str "no-email@example.com") ∧
      vars.getField "note" = some (Json.str "gift wrap") ∧
      vars.getField "financialStatus" = some (Json.str "PAID") :=
  createOrder_payload_defaults SrcVariant.part000 ⟨some "tok"⟩
    ⟨some (Json.str "g2"), some (Json.num 3), none, some (Json.str "gift wrap")⟩
    ⟨"g2", "Mug", [⟨⟨"v9"⟩⟩]⟩ ⟨⟨"v9"⟩⟩ [] (FetchBehavior.success ⟨some ⟨Json.null, some []⟩⟩)
    (by decide) (by decide) (by decide) rfl

/-- C9: for every configuration, request body and fixed upstream
behavior, the two source variants send the caller the same HTTP response;
their call traces agree up to renaming the order-mutation call (the
mutation tag and the single variables key `order` vs `input`). -/
theorem variants_equivalent (cfg : Config) (body : OrderReqBody)
    (beh1 : FetchBehavior VariantData) (beh2 : FetchBehavior OrderData) :
    (createOrderHandler SrcVariant.serverJs cfg body beh1 beh2).fst =
      (createOrderHandler SrcVariant.part000 cfg body beh1 beh2).fst ∧
    (createOrderHandler SrcVariant.part000 cfg body beh1 beh2).snd =
      (createOrderHandler SrcVariant.serverJs cfg body beh1 beh2).snd.map
        renameOrderCall := by
  cases hval : (falsyOpt body.productId || falsyOpt body.quantity) with
  | true => simp [createOrderHandler, hval]
  | false =>
    cases htok : tokenTruthy cfg.adminToken with
    | false =>
      cases beh1 <;>
        simp [createOrderHandler, callShopify, shopifyAdminGraphQL, hval, htok]
    | true =>
      cases beh1 with
      | httpError s =>
        simp [createOrderHandler, callShopify, shopifyAdminGraphQL, hval, htok,
          renameOrderCall]
      | gqlErrors es =>
        simp [createOrderHandler, callShopify, shopifyAdminGraphQL, hval, htok,
          renameOrderCall]
      | success d =>
        obtain ⟨dp⟩ := d
        cases dp with
        | none =>
          simp [createOrderHandler, callShopify, shopifyAdminGraphQL, hval, htok,
            renameOrderCall]
        | some p =>
          cases hvv : p.variants with
          | nil =>
            simp [createOrderHandler, callShopify, shopifyAdminGraphQL, hval, htok,
              hvv, renameOrderCall]
          | cons e es =>
            cases beh2 with
            | httpError s2 =>
              simp [createOrderHandler, callShopify, shopifyAdminGraphQL, hval, htok,
                hvv, renameOrderCall]
            | gqlErrors es2 =>
              simp [createOrderHandler, callShopify, shopifyAdminGraphQL, hval, htok,
                hvv, renameOrderCall]
            | success od =>
              obtain ⟨oc⟩ := od
              cases oc with
              | none =>
                simp [createOrderHandler, callShopify, shopifyAdminGraphQL, hval,
                  htok, hvv, renameOrderCall]
              | some result =>
                by_cases hue : userErrorsNonEmpty result.userErrors = true <;>
                  simp [createOrderHandler, callShopify, shopifyAdminGraphQL, hval,
                    htok, hvv, hue, renameOrderCall]
